import Mathlib

/-!
Shallow embedding of the job-tracker Flask application (`app.py`): data model
(`Users` and `Apps` collections), the authentication handlers, the dashboard
aggregation (`home`), the list/filter/sort handler (`track`), and the `edit`
update.  Database collections are modelled as Lean lists of records; MongoDB
single-document operations become pure functions on those lists; handlers that
can raise become `Except`-valued functions or return an explicit error page
response.
-/

/-! ## Calendar arithmetic

`home` compares datetimes: `week_start` (most recent Monday, midnight),
`month_start` (first of the month, midnight) and each record's `date` field
parsed by MongoDB's `$dateFromString` with format `"%m/%d/%Y"` (midnight).
Every instant compared is at midnight, so instants are modelled as civil day
numbers.  `daysFromCivil` is the standard civil-from-date day count (days since
0000-03-01, proleptic Gregorian), valid for the years that concern us. -/

/-- Day number of a proleptic-Gregorian calendar date, counted from
0000-03-01 (Howard Hinnant's `days_from_civil`, restricted to `Nat`). -/
def daysFromCivil (y m d : Nat) : Nat :=
  let y' := if m ≤ 2 then y - 1 else y
  let era := y' / 400
  let yoe := y' % 400
  let mp := (m + 9) % 12
  let doy := (153 * mp + 2) / 5 + d - 1
  let doe := yoe * 365 + yoe / 4 - yoe / 100 + doy
  era * 146097 + doe

/-- Python's `datetime.weekday()`: Monday = 0 … Sunday = 6.  Day 0 of
`daysFromCivil` (0000-03-01) falls on a Wednesday, hence the offset 2. -/
def pyWeekday (dayNum : Nat) : Nat := (dayNum + 2) % 7

/-- A wall-clock datetime as Python's `datetime.now()` produces it
(seconds and below are irrelevant to every comparison in the code). -/
structure DateTime where
  year : Nat
  month : Nat
  day : Nat
  hour : Nat
  minute : Nat
deriving DecidableEq, Repr

/-! ## Date-string parsing (`$dateFromString`, format `"%m/%d/%Y"`)

MongoDB's `%m` and `%d` are zero-padded two-digit fields and `%Y` is a
four-digit year; a string not of that shape fails to parse.  Without an
`onError` argument — and `app.py` supplies none — a failed parse raises a
conversion error that aborts the whole query. -/

/-- Is every character of the list an ASCII digit? -/
def allDigits : List Char → Bool
  | [] => true
  | c :: cs => c.isDigit && allDigits cs

/-- Numeric value of a list of ASCII digit characters. -/
def digitsToNat : List Char → Nat → Nat
  | [], acc => acc
  | c :: cs, acc => digitsToNat cs (acc * 10 + (c.toNat - 48))

/-- Split a character list on the `/` separator. -/
def splitSlash : List Char → List (List Char)
  | [] => [[]]
  | c :: cs =>
    let r := splitSlash cs
    if c = '/' then [] :: r
    else
      match r with
      | [] => [[c]]
      | g :: gs => (c :: g) :: gs

/-- Parse a date string in the fixed `"%m/%d/%Y"` format: two zero-padded
digits, `/`, two zero-padded digits, `/`, four digits, with the month in
1–12 and the day in 1–31.  Returns `(month, day, year)`. -/
def parseDateMDY (s : String) : Option (Nat × Nat × Nat) :=
  match splitSlash s.data with
  | [ms, ds, ys] =>
    if ms.length = 2 && ds.length = 2 && ys.length = 4 &&
        allDigits ms && allDigits ds && allDigits ys then
      let m := digitsToNat ms 0
      let d := digitsToNat ds 0
      let y := digitsToNat ys 0
      if 1 ≤ m && m ≤ 12 && 1 ≤ d && d ≤ 31 then some (m, d, y) else none
    else none
  | _ => none

/-- Errors surfaced by the modelled MongoDB operations. -/
inductive MongoError
  | conversionFailure
deriving DecidableEq, Repr

/-- `$dateFromString` with format `"%m/%d/%Y"` and no `onError`: yields the
day number of the parsed date, or a conversion error. -/
def dateFromString (s : String) : Except MongoError Nat :=
  match parseDateMDY s with
  | some (m, d, y) => .ok (daysFromCivil y m d)
  | none => .error .conversionFailure

/-! ## Data model -/

/-- A document of the `Users` collection. -/
structure UserRec where
  id : Nat
  username : String
  password : String
deriving DecidableEq, Repr

/-- A document of the `Apps` collection: the eight form fields plus `_id`
and the `user` owner reference. -/
structure AppRec where
  id : Nat
  user : Nat
  company : String
  role : String
  category : String
  location : String
  flexibility : String
  status : String
  date : String
  link : String
deriving DecidableEq, Repr

/-! ## Dashboard aggregation (`home`) -/

/-- `db.Apps.find({"$expr": {"$gte": [{"$dateFromString": …}, bound]},
"user": uid})`: the documents of owner `uid` whose parsed date is on or
after day `bound`.  A document of that owner whose date fails to parse
aborts the query with the `$dateFromString` conversion error. -/
def findDateGte (apps : List AppRec) (uid : Nat) (bound : Nat) :
    Except MongoError (List AppRec) :=
  match apps with
  | [] => .ok []
  | a :: rest =>
    if a.user = uid then
      match dateFromString a.date with
      | .error e => .error e
      | .ok dn =>
        match findDateGte rest uid bound with
        | .error e => .error e
        | .ok l => .ok (if bound ≤ dn then a :: l else l)
    else findDateGte rest uid bound

/-- `db.Apps.count_documents({"status": st, "user": uid})`. -/
def countStatus (apps : List AppRec) (uid : Nat) (st : String) : Nat :=
  (apps.filter (fun a => a.user = uid && a.status = st)).length

/-- The values `home` hands to the dashboard template. -/
structure HomeSummary where
  week : Nat
  month : Nat
  total : Nat
  accepted : Nat
  interviewing : Nat
  rejected : Nat
deriving DecidableEq, Repr

/-- The `/home` handler's aggregation: `week_start` is `now` minus
`now.weekday()` days at midnight, `month_start` is the first of `now`'s
month at midnight; the week and month document lists are materialised
first (so a date-conversion error aborts before any status count), then
the status counts and total are taken. -/
def home (apps : List AppRec) (uid : Nat) (now : DateTime) :
    Except MongoError HomeSummary :=
  let todayDay := daysFromCivil now.year now.month now.day
  let weekStart := todayDay - pyWeekday todayDay
  let monthStart := daysFromCivil now.year now.month 1
  match findDateGte apps uid weekStart with
  | .error e => .error e
  | .ok docsWeek =>
    match findDateGte apps uid monthStart with
    | .error e => .error e
    | .ok docsMonth =>
      .ok { week := docsWeek.length
            month := docsMonth.length
            total := (apps.filter (fun a => a.user = uid)).length
            accepted := countStatus apps uid "Offer Received"
            interviewing := countStatus apps uid "Interview Scheduled"
            rejected := countStatus apps uid "Rejected" }

/-! ## Route responses and authentication -/

/-- What a route handler returns to the browser. -/
inductive Response
  | page (template : String)
  | redirect (target : String)
  | errorPage (fault : String)
deriving DecidableEq, Repr

/-- The `@login_required` decorator: with no authenticated session the
request is redirected to the login view; otherwise the wrapped handler
runs with the session's user id. -/
def loginRequired (handler : Nat → Response) (sess : Option Nat) : Response :=
  match sess with
  | none => .redirect "login"
  | some uid => handler uid

/-- The `/` route (`landing`): no decorator, it renders `landing.html`
for every request, authenticated or not. -/
def landing (sess : Option Nat) : Response :=
  match sess with
  | _ => .page "landing.html"

/-- The `/home` route as dispatched through `@login_required` (the
rendered summary is irrelevant here; only the guard matters). -/
def homeRoute (sess : Option Nat) : Response :=
  loginRequired (fun _ => .page "home.html") sess

/-! ## Auth service (`login`, `signup`) -/

/-- Outcome of a `POST /login`. -/
inductive LoginResult
  | success (uid : Nat)
  | invalid
deriving DecidableEq, Repr

/-- The `/login` POST handler.  `checkHash storedHash password` models
werkzeug's `check_password_hash`.  Returns the outcome and the session's
`user_id` binding after the request (`sess` is the binding before it). -/
def login (users : List UserRec) (sess : Option Nat)
    (username password : String) (checkHash : String → String → Bool) :
    LoginResult × Option Nat :=
  match users.find? (fun u => u.username = username) with
  | some u =>
    if checkHash u.password password then (.success u.id, some u.id)
    else (.invalid, sess)
  | none => (.invalid, sess)

/-- Outcome of a `POST /signup`. -/
inductive SignupResult
  | duplicateUsername
  | created (uid : Nat)
deriving DecidableEq, Repr

/-- The `/signup` POST handler.  `hashFn` models
`generate_password_hash(·, method=md5)` (a salted hash produced by
werkzeug); `newId` is the `_id` MongoDB assigns to the inserted document.
Returns the outcome and the `Users` collection after the request. -/
def signup (users : List UserRec) (username password : String)
    (hashFn : String → String) (newId : Nat) :
    SignupResult × List UserRec :=
  match users.find? (fun u => u.username = username) with
  | some _ => (.duplicateUsername, users)
  | none => (.created newId, users ++ [⟨newId, username, hashFn password⟩])

/-! ## Listing, filtering and sorting (`track`) -/

/-- Python's `str.lower()` for the ASCII inputs that occur here. -/
def strToLower (s : String) : String :=
  String.mk (s.data.map Char.toLower)

/-- Does `pat` occur as a contiguous substring of `hay` (Python's
`pat in hay`)?  Defined over character lists. -/
def lstartsWith : List Char → List Char → Bool
  | _, [] => true
  | [], _ :: _ => false
  | a :: as, b :: bs => a == b && lstartsWith as bs

/-- Substring occurrence on character lists. -/
def lcontains : List Char → List Char → Bool
  | hay, pat =>
    match hay with
    | [] => pat.isEmpty
    | _ :: rest => lstartsWith hay pat || lcontains rest pat

/-- Python's `pat in hay` on strings. -/
def strHasSub (hay pat : String) : Bool := lcontains hay.data pat.data

/-- Ascending order on the text `date` field (MongoDB's `sort("date", 1)`
compares the stored strings byte-lexicographically, here as the
lexicographic order on their character lists). -/
def dateLe (a b : AppRec) : Prop := a.date.data ≤ b.date.data

/-- Descending order on the text `date` field (`sort("date", -1)`). -/
def dateGe (a b : AppRec) : Prop := b.date.data ≤ a.date.data

instance : DecidableRel dateLe := fun a b =>
  inferInstanceAs (Decidable (a.date.data ≤ b.date.data))

instance : DecidableRel dateGe := fun a b =>
  inferInstanceAs (Decidable (b.date.data ≤ a.date.data))

instance : IsTotal AppRec dateLe := ⟨fun a b => le_total a.date.data b.date.data⟩

instance : IsTrans AppRec dateLe := ⟨fun _ _ _ h h' => le_trans h h'⟩

instance : IsTotal AppRec dateGe := ⟨fun a b => le_total b.date.data a.date.data⟩

instance : IsTrans AppRec dateGe := ⟨fun _ _ _ h h' => le_trans h' h⟩

/-- What `POST /track` produces: a rendered application list, or an
unhandled Python exception (surfaced by the generic error handler). -/
inductive TrackResult
  | apps (l : List AppRec)
  | unhandled (fault : String)
deriving DecidableEq, Repr

/-- The `POST /track` handler.  `choice` is `request.form.get(status)`
(`none` when the field is absent).  A missing field raises
`AttributeError` on `choice.lower()`; a choice matching no branch leaves
`applications` unassigned and the final render raises
`UnboundLocalError`.  `descending` sorts by `sort("date", 1)` (ascending
strings) and `ascending` by `sort("date", -1)` (descending strings). -/
def track (apps : List AppRec) (uid : Nat) (choice : Option String) :
    TrackResult :=
  match choice with
  | none => .unhandled "AttributeError"
  | some c =>
    let lc := strToLower c
    if strHasSub lc "applied" || strHasSub lc "interview" ||
        strHasSub lc "rejected" || strHasSub lc "offer" ||
        strHasSub lc "accepted" then
      .apps (apps.filter (fun a => a.user = uid && a.status = c))
    else if lc = "descending" then
      .apps (List.insertionSort dateLe (apps.filter (fun a => a.user = uid)))
    else if lc = "ascending" then
      .apps (List.insertionSort dateGe (apps.filter (fun a => a.user = uid)))
    else .unhandled "UnboundLocalError"

/-- The `GET /track` handler: the owner's applications with
`sort("date", -1)` (descending strings). -/
def trackGet (apps : List AppRec) (uid : Nat) : List AppRec :=
  List.insertionSort dateGe (apps.filter (fun a => a.user = uid))

/-! ## Editing (`edit` / `update_one`) -/

/-- The eight form fields the `/edit` handler reads. -/
structure EditFields where
  company : String
  role : String
  category : String
  location : String
  flexibility : String
  status : String
  date : String
  link : String
deriving DecidableEq, Repr

/-- The `$set` document of `edit`: the eight named fields are replaced,
`_id` and `user` are untouched. -/
def applySet (a : AppRec) (f : EditFields) : AppRec :=
  { a with company := f.company, role := f.role, category := f.category,
           location := f.location, flexibility := f.flexibility,
           status := f.status, date := f.date, link := f.link }

/-- `db.Apps.update_one({"_id": rid}, {"$set": …})`: replaces the fields
of the first document whose `_id` matches, and is a no-op when none
matches. -/
def updateOne (apps : List AppRec) (rid : Nat) (f : EditFields) :
    List AppRec :=
  match apps with
  | [] => []
  | a :: rest =>
    if a.id = rid then applySet a f :: rest
    else a :: updateOne rest rid f

/-- The `/edit` POST handler: updates and redirects to `/track`, whatever
`update_one` matched. -/
def edit (apps : List AppRec) (rid : Nat) (f : EditFields) :
    Response × List AppRec :=
  (.redirect "track", updateOne apps rid f)

/-! ## Concrete fixtures used by counterexamples and witnesses -/

/-- `now` of the spec's dashboard test vector: Monday 2024-01-08, 10:00. -/
def nowC1 : DateTime := ⟨2024, 1, 8, 10, 0⟩

/-- Application dated Sunday 2024-01-07, owner 7. -/
def appJan7 : AppRec :=
  ⟨1, 7, "Acme", "SWE", "Tech", "NYC", "Onsite", "Applied", "01/07/2024", "u1"⟩

/-- Application dated Monday 2024-01-08, owner 7. -/
def appJan8 : AppRec :=
  ⟨2, 7, "Bravo", "SWE", "Tech", "NYC", "Onsite", "Applied", "01/08/2024", "u2"⟩

/-- Application dated Saturday 2023-12-30, owner 7. -/
def appDec30 : AppRec :=
  ⟨3, 7, "Cobra", "SWE", "Tech", "NYC", "Onsite", "Applied", "12/30/2023", "u3"⟩

/-- The three applications of the spec's dashboard test vector. -/
def dbC1 : List AppRec := [appJan7, appJan8, appDec30]

/-- An application whose `date` field is not in `%m/%d/%Y` shape. -/
def appBadDate : AppRec :=
  ⟨4, 9, "Dex", "SWE", "Tech", "NYC", "Remote", "Applied", "not-a-date", "u4"⟩

/-! ## C1 — dashboard week count on the spec's test vector -/

/-- C1 counterexample: on the three-application test vector at
now = Monday 2024-01-08 10:00, the dashboard does NOT report
`weekCount = 2`. -/
theorem C1_week_count_two_refuted :
    ¬ ∃ s : HomeSummary, home dbC1 7 nowC1 = Except.ok s ∧ s.week = 2 := by
  intro ⟨s, hs, hw⟩
  have h : home dbC1 7 nowC1 = Except.ok ⟨1, 2, 3, 0, 0, 0⟩ := rfl
  rw [h] at hs
  cases hs
  exact absurd hw (by decide)

/-- C1 (amended): at now = Monday 2024-01-08 10:00 the most recent Monday
at midnight is 2024-01-08 itself, so of the three applications only the one
dated 2024-01-08 is counted: `weekCount = 1` (2024-01-07 is a Sunday of the
previous ISO week, 2023-12-30 is older still), while `monthCount = 2` and
`total = 3`. -/
theorem C1_week_count_amended :
    home dbC1 7 nowC1 =
      Except.ok { week := 1, month := 2, total := 3,
                  accepted := 0, interviewing := 0, rejected := 0 } ∧
      pyWeekday (daysFromCivil 2024 1 8) = 0 := ⟨rfl, rfl⟩

/-! ## C2 — records with unparseable dates -/

/-- If some application of the owner has a `date` field that
`$dateFromString` cannot parse, the week query (and hence `home`) aborts
with the conversion error. -/
theorem findDateGte_error_of_bad_date (apps : List AppRec) (uid : Nat)
    (bound : Nat) (h : ∃ a ∈ apps, a.user = uid ∧ parseDateMDY a.date = none) :
    findDateGte apps uid bound = Except.error MongoError.conversionFailure := by
  induction apps with
  | nil => simp at h
  | cons a rest ih =>
    obtain ⟨b, hb, hbu, hbd⟩ := h
    rcases List.mem_cons.mp hb with hba | hbr
    · subst hba
      simp only [findDateGte, if_pos hbu, dateFromString, hbd]
    · by_cases hau : a.user = uid
      · simp only [findDateGte, if_pos hau]
        cases had : dateFromString a.date with
        | error e =>
          have : e = MongoError.conversionFailure := by cases e; rfl
          rw [this]
        | ok dn => rw [ih ⟨b, hbr, hbu, hbd⟩]
      · simp only [findDateGte, if_neg hau]
        exact ih ⟨b, hbr, hbu, hbd⟩

/-- C2 counterexample: an owner whose single application is dated
`"not-a-date"` gets no dashboard summary at all — `home` returns the
conversion error, never `ok`. -/
theorem C2_bad_date_excluded_refuted :
    home [appBadDate] 9 nowC1 = Except.error MongoError.conversionFailure ∧
      ∀ s : HomeSummary, home [appBadDate] 9 nowC1 ≠ Except.ok s := by
  refine ⟨rfl, fun s hs => ?_⟩
  rw [(rfl : home [appBadDate] 9 nowC1 =
        Except.error MongoError.conversionFailure)] at hs
  exact Except.noConfusion hs

/-- C2 (amended): if some application of the owner has an unparseable
`date`, the whole dashboard aggregation errors (there is no `onError` on
`$dateFromString`), instead of excluding the record and succeeding. -/
theorem C2_bad_date_aborts_home (apps : List AppRec) (uid : Nat)
    (now : DateTime)
    (h : ∃ a ∈ apps, a.user = uid ∧ parseDateMDY a.date = none) :
    home apps uid now = Except.error MongoError.conversionFailure := by
  have h1 := findDateGte_error_of_bad_date apps uid
    (daysFromCivil now.year now.month now.day -
      pyWeekday (daysFromCivil now.year now.month now.day)) h
  simp only [home, h1]

/-- C2 witness: the amended theorem applied to the `"not-a-date"`
fixture. -/
theorem C2_bad_date_aborts_home_witness :
    home [appBadDate] 9 nowC1 = Except.error MongoError.conversionFailure :=
  C2_bad_date_aborts_home [appBadDate] 9 nowC1
    ⟨appBadDate, List.mem_singleton.mpr rfl, rfl, rfl⟩

/-! ## C4 — the landing route has no authentication guard -/

/-- C4 counterexample: a request with no session still renders the
landing view — `/` is not a protected route. -/
theorem C4_landing_requires_auth_refuted :
    landing none = Response.page "landing.html" := rfl

/-- C4 (amended): `/` enforces no authentication — it renders the landing
view for every request, with or without a session — unlike the protected
routes, whose `login_required` guard redirects a session-less request to
the login view (shown here for `/home`). -/
theorem C4_landing_unprotected :
    (∀ sess : Option Nat, landing sess = Response.page "landing.html") ∧
      homeRoute none = Response.redirect "login" :=
  ⟨fun _ => rfl, rfl⟩

/-! ## C3 — sort directions in `track` -/

/-- C3 counterexample: on the three-application database the `ascending`
filter returns `[appDec30, appJan8, appJan7]` — not the
ascending-by-applied-date sequence `[appDec30, appJan7, appJan8]`. -/
theorem C3_ascending_refuted :
    track dbC1 7 (some "ascending") =
        TrackResult.apps [appDec30, appJan8, appJan7] ∧
      track dbC1 7 (some "ascending") ≠
        TrackResult.apps [appDec30, appJan7, appJan8] := by
  constructor
  · rfl
  · intro h
    rw [(rfl : track dbC1 7 (some "ascending") =
          TrackResult.apps [appDec30, appJan8, appJan7])] at h
    exact absurd h (by decide)

/-- C3 (amended): the directions are swapped and the order is the
lexicographic order of the `date` text, not the calendar order: the
`ascending` filter returns the owner's applications sorted descending by
date string, the `descending` filter sorted ascending by date string, and
the default (GET) view sorted descending by date string; each result is a
permutation of the owner's applications. -/
theorem C3_sort_swapped_lexicographic (apps : List AppRec) (uid : Nat) :
    (∃ l, track apps uid (some "ascending") = TrackResult.apps l ∧
        List.Sorted dateGe l ∧ l.Perm (apps.filter (fun a => a.user = uid))) ∧
    (∃ l, track apps uid (some "descending") = TrackResult.apps l ∧
        List.Sorted dateLe l ∧ l.Perm (apps.filter (fun a => a.user = uid))) ∧
    List.Sorted dateGe (trackGet apps uid) ∧
    (trackGet apps uid).Perm (apps.filter (fun a => a.user = uid)) :=
  ⟨⟨_, rfl, List.sorted_insertionSort dateGe _, List.perm_insertionSort dateGe _⟩,
   ⟨_, rfl, List.sorted_insertionSort dateLe _, List.perm_insertionSort dateLe _⟩,
   List.sorted_insertionSort dateGe _, List.perm_insertionSort dateGe _⟩

/-! ## C5 — signup: duplicate usernames and fresh usernames -/

/-- Helper: `signup` when some user already holds the username. -/
theorem signup_duplicate (users : List UserRec) (un pw : String)
    (hashFn : String → String) (newId : Nat)
    (h : ∃ u ∈ users, u.username = un) :
    signup users un pw hashFn newId = (.duplicateUsername, users) := by
  obtain ⟨u, hu, hname⟩ := h
  cases hfind : users.find? (fun v => v.username = un) with
  | some v => simp [signup, hfind]
  | none =>
    exfalso
    have := List.find?_eq_none.mp hfind u hu
    simp [hname] at this

/-- Helper: `signup` when no user holds the username. -/
theorem signup_fresh (users : List UserRec) (un pw : String)
    (hashFn : String → String) (newId : Nat)
    (h : ∀ u ∈ users, u.username ≠ un) :
    signup users un pw hashFn newId =
      (.created newId, users ++ [⟨newId, un, hashFn pw⟩]) := by
  have hfind : users.find? (fun v => v.username = un) = none :=
    List.find?_eq_none.mpr (fun u hu => by simp [h u hu])
  simp [signup, hfind]

/-- C5: signup with an existing username fails with the duplicate-username
outcome, inserts nothing and leaves every stored record (username and
password hash included) unchanged; signup with a fresh username inserts
exactly one record carrying the hashed password and returns the new id. -/
theorem C5_signup_duplicate_and_fresh (users : List UserRec) (un pw : String)
    (hashFn : String → String) (newId : Nat) :
    ((∃ u ∈ users, u.username = un) →
      signup users un pw hashFn newId = (.duplicateUsername, users)) ∧
    ((∀ u ∈ users, u.username ≠ un) →
      signup users un pw hashFn newId =
        (.created newId, users ++ [⟨newId, un, hashFn pw⟩])) :=
  ⟨signup_duplicate users un pw hashFn newId,
   signup_fresh users un pw hashFn newId⟩

/-- C5 witness: both branches at concrete inputs. -/
theorem C5_signup_witness :
    signup [⟨1, "alice", "h1"⟩] "alice" "pw"
        (fun s => String.append "md5$salt$" s) 2 =
      (SignupResult.duplicateUsername, [⟨1, "alice", "h1"⟩]) ∧
    signup [⟨1, "alice", "h1"⟩] "bob" "pw"
        (fun s => String.append "md5$salt$" s) 2 =
      (SignupResult.created 2,
        [⟨1, "alice", "h1"⟩, ⟨2, "bob", String.append "md5$salt$" "pw"⟩]) :=
  ⟨(C5_signup_duplicate_and_fresh [⟨1, "alice", "h1"⟩] "alice" "pw"
      (fun s => String.append "md5$salt$" s) 2).1
      ⟨⟨1, "alice", "h1"⟩, by simp, rfl⟩,
   (C5_signup_duplicate_and_fresh [⟨1, "alice", "h1"⟩] "bob" "pw"
      (fun s => String.append "md5$salt$" s) 2).2 (by decide)⟩

/-! ## C6 — login failures create no session -/

/-- C6: a login with an unknown username, or with a known username whose
stored hash rejects the supplied password, yields the invalid outcome and
leaves the session binding exactly as it was; a session binding different
from the incoming one arises only from a successful check, and it is bound
to the matched user's id. -/
theorem C6_login_failure_no_session (users : List UserRec)
    (sess : Option Nat) (un pw : String)
    (checkHash : String → String → Bool) :
    ((∀ u ∈ users, u.username ≠ un) →
      login users sess un pw checkHash = (.invalid, sess)) ∧
    ((∀ u ∈ users, u.username = un → checkHash u.password pw = false) →
      login users sess un pw checkHash = (.invalid, sess)) ∧
    (∀ res s', login users sess un pw checkHash = (res, s') → s' ≠ sess →
      ∃ u ∈ users, u.username = un ∧ checkHash u.password pw = true ∧
        res = LoginResult.success u.id ∧ s' = some u.id) := by
  refine ⟨?_, ?_, ?_⟩
  · intro h
    have hfind : users.find? (fun v => v.username = un) = none :=
      List.find?_eq_none.mpr (fun u hu => by simp [h u hu])
    simp [login, hfind]
  · intro h
    cases hfind : users.find? (fun v => v.username = un) with
    | none => simp [login, hfind]
    | some u =>
      have hmem := List.mem_of_find?_eq_some hfind
      have hname : u.username = un := by
        have := List.find?_some hfind
        simpa using this
      have hch := h u hmem hname
      simp [login, hfind, hch]
  · intro res s' hlogin hne
    cases hfind : users.find? (fun v => v.username = un) with
    | none =>
      simp only [login, hfind, Prod.mk.injEq] at hlogin
      exact absurd hlogin.2.symm hne
    | some u =>
      have hmem := List.mem_of_find?_eq_some hfind
      have hname : u.username = un := by
        have := List.find?_some hfind
        simpa using this
      cases hch : checkHash u.password pw with
      | false =>
        simp only [login, hfind, hch, Bool.false_eq_true, if_false,
          Prod.mk.injEq] at hlogin
        exact absurd hlogin.2.symm hne
      | true =>
        simp only [login, hfind, hch, if_true, Prod.mk.injEq] at hlogin
        exact ⟨u, hmem, hname, hch, hlogin.1.symm, hlogin.2.symm⟩

/-- C6 witness: unknown username, wrong password, and a successful login,
all on a one-user collection with byte-equality as the hash check. -/
theorem C6_login_witness :
    login [⟨1, "alice", "pw"⟩] none "bob" "pw" (fun st p => st == p) =
        (LoginResult.invalid, none) ∧
      login [⟨1, "alice", "pw"⟩] none "alice" "wrong" (fun st p => st == p) =
        (LoginResult.invalid, none) ∧
      ∃ u ∈ [(⟨1, "alice", "pw"⟩ : UserRec)], u.username = "alice" ∧
        (fun st p => st == p) u.password "pw" = true ∧
        LoginResult.success 1 = LoginResult.success u.id ∧
        (some 1 : Option Nat) = some u.id :=
  ⟨(C6_login_failure_no_session [⟨1, "alice", "pw"⟩] none "bob" "pw"
      (fun st p => st == p)).1 (by decide),
   (C6_login_failure_no_session [⟨1, "alice", "pw"⟩] none "alice" "wrong"
      (fun st p => st == p)).2.1 (by decide),
   (C6_login_failure_no_session [⟨1, "alice", "pw"⟩] none "alice" "pw"
      (fun st p => st == p)).2.2 (LoginResult.success 1) (some 1) rfl
      (by decide)⟩

/-! ## C7 — edit of a nonexistent record id is a silent no-op -/

/-- Helper: `update_one` matches nothing when no record carries the id. -/
theorem updateOne_no_match (apps : List AppRec) (rid : Nat) (f : EditFields)
    (h : ∀ a ∈ apps, a.id ≠ rid) :
    updateOne apps rid f = apps := by
  induction apps with
  | nil => rfl
  | cons a rest ih =>
    have ha : a.id ≠ rid := h a (List.mem_cons_self a rest)
    simp only [updateOne, if_neg ha]
    rw [ih (fun b hb => h b (List.mem_cons_of_mem a hb))]

/-- C7: when no application carries the requested id, the edit raises no
error, still redirects to the tracking view, and leaves every record of
the `Apps` collection unchanged. -/
theorem C7_edit_missing_id_noop (apps : List AppRec) (rid : Nat)
    (f : EditFields) (h : ∀ a ∈ apps, a.id ≠ rid) :
    edit apps rid f = (Response.redirect "track", apps) := by
  simp only [edit, updateOne_no_match apps rid f h]

/-- Replacement fields used by the edit fixtures. -/
def f0 : EditFields :=
  ⟨"NewCo", "PM", "Biz", "SF", "Hybrid", "Rejected", "02/01/2024", "u9"⟩

/-- C7 witness: editing id 99, absent from the three-application
database, changes nothing. -/
theorem C7_edit_missing_id_noop_witness :
    edit dbC1 99 f0 = (Response.redirect "track", dbC1) :=
  C7_edit_missing_id_noop dbC1 99 f0 (by decide)

/-! ## C8 — signup does not validate the password -/

/-- C8 counterexample: on an empty `Users` collection, signup with an
empty password still creates the account and stores the hash of the empty
string. -/
theorem C8_empty_password_rejected_refuted :
    signup [] "bob" "" (fun s => s) 1 =
      (SignupResult.created 1, [⟨1, "bob", ""⟩]) := rfl

/-- C8 (amended): signup performs no password validation at all — for any
fresh username the account is created even when the password is the empty
string, storing the hash of `""`. -/
theorem C8_no_password_validation (users : List UserRec) (un : String)
    (hashFn : String → String) (newId : Nat)
    (h : ∀ u ∈ users, u.username ≠ un) :
    signup users un "" hashFn newId =
      (.created newId, users ++ [⟨newId, un, hashFn ""⟩]) :=
  signup_fresh users un "" hashFn newId h

/-- C8 witness: the amended theorem at a one-user collection. -/
theorem C8_no_password_validation_witness :
    signup [⟨1, "alice", "h1"⟩] "bob" "" (fun s => s) 2 =
      (SignupResult.created 2, [⟨1, "alice", "h1"⟩, ⟨2, "bob", ""⟩]) :=
  C8_no_password_validation [⟨1, "alice", "h1"⟩] "bob" (fun s => s) 2
    (by decide)

/-! ## C9 — edit replaces only the eight form fields -/

/-- Helper: `update_one` never changes any record's `_id` or `user`. -/
theorem updateOne_map_id_user (apps : List AppRec) (rid : Nat)
    (f : EditFields) :
    (updateOne apps rid f).map (fun a => (a.id, a.user)) =
      apps.map (fun a => (a.id, a.user)) := by
  induction apps with
  | nil => rfl
  | cons a rest ih =>
    by_cases hid : a.id = rid
    · simp [updateOne, hid, applySet]
    · simp [updateOne, hid, ih]

/-- C9: the edit leaves the id and owner of every record in place — the
id/owner projection of the collection is unchanged — and the `$set`
document replaces exactly the eight form fields of the matched record,
keeping its `_id` and `user`. -/
theorem C9_edit_preserves_id_and_owner (apps : List AppRec) (rid : Nat)
    (f : EditFields) :
    (edit apps rid f).2.map (fun a => (a.id, a.user)) =
        apps.map (fun a => (a.id, a.user)) ∧
      ∀ a : AppRec, applySet a f =
        ⟨a.id, a.user, f.company, f.role, f.category, f.location,
         f.flexibility, f.status, f.date, f.link⟩ :=
  ⟨updateOne_map_id_user apps rid f, fun _ => rfl⟩

/-! ## C10 — `track` on a status matching no branch raises -/

/-- C10: a POST to `/track` with no status field raises `AttributeError`
(`None.lower()`), and one whose lowercased status contains none of the
five recognised substrings and is neither `ascending` nor `descending`
leaves `applications` unassigned, so the final render raises
`UnboundLocalError`; both surface as unhandled errors and no application
list is returned. -/
theorem C10_track_unmatched_choice_raises (apps : List AppRec) (uid : Nat) :
    track apps uid none = TrackResult.unhandled "AttributeError" ∧
    ∀ c : String,
      strHasSub (strToLower c) "applied" = false →
      strHasSub (strToLower c) "interview" = false →
      strHasSub (strToLower c) "rejected" = false →
      strHasSub (strToLower c) "offer" = false →
      strHasSub (strToLower c) "accepted" = false →
      strToLower c ≠ "descending" →
      strToLower c ≠ "ascending" →
      track apps uid (some c) = TrackResult.unhandled "UnboundLocalError" := by
  refine ⟨rfl, fun c h1 h2 h3 h4 h5 h6 h7 => ?_⟩
  simp [track, h1, h2, h3, h4, h5, h6, h7]

/-- C10 witness: the status `"zzz"` matches no branch; the missing-status
case is instantiated on the same database. -/
theorem C10_track_unmatched_choice_raises_witness :
    track dbC1 7 none = TrackResult.unhandled "AttributeError" ∧
      track dbC1 7 (some "zzz") = TrackResult.unhandled "UnboundLocalError" :=
  ⟨(C10_track_unmatched_choice_raises dbC1 7).1,
   (C10_track_unmatched_choice_raises dbC1 7).2 "zzz" rfl rfl rfl rfl rfl
     (by decide) (by decide)⟩
